import Mathlib

/-
Verification of the COA Services contact-form server
(`server/server.js`, the security-hardened variant).

The server-side logic is shallowly embedded here:
  * `sanitizeHtml`   — the HTML-escaping function (six sequential global
                       character replacements);
  * the CSRF token store (a JS `Map`, modelled as `String → Option Entry`),
    with `issueToken` (the `/api/csrf-token` handler's store effect) and
    `validateCsrf` (the CSRF middleware);
  * `validateFields` with `emailRegexTest` — the required-field check and the
    email regex `^[^\s@]+@[^\s@]+\.[^\s@]+$` of the `/api/contact` handler;
  * `rateAdmit`      — the per-address rate window (the `express-rate-limit`
                       dependency's algorithm is not part of this repository;
                       it is modelled from the specification, with the
                       constants `windowMs = 15*60*1000` and `max = 5` taken
                       from the source configuration);
  * `contactPipeline` — the `/api/contact` middleware chain
                       (rate limit, CSRF, config check, field validation,
                       sanitization, two sequential mail sends), instrumented
                       with an event trace recording the start of field
                       validation and every attempted mail send.

Timestamps (`Date.now()`) are modelled as natural numbers (milliseconds).
JS strings are modelled as `String` / `List Char`; a possibly-missing value
is an `Option String`, and the JS falsiness test `!s` on a string is
`jsFalsy` (missing or empty).
-/

/-! ### Sanitizer (`sanitizeHtml`, server.js lines 17–26) -/

/-- The double-quote character `"` (written via its code point to keep the
source free of quote-in-quote literals). -/
def quoteChar : Char := Char.ofNat 34

/-- The apostrophe character. -/
def aposChar : Char := Char.ofNat 39

/-- The six characters that `sanitizeHtml` escapes: `& < > " ' /`. -/
def specials : List Char := ['&', '<', '>', quoteChar, aposChar, '/']

/-- Global single-character replacement, the semantics of
`str.replace(/c/g, r)` for a single character `c`. -/
def replCh (c : Char) (r : List Char) : List Char → List Char
  | [] => []
  | x :: xs => (if x = c then r else [x]) ++ replCh c r xs

/-- The six sequential global replacements of `sanitizeHtml`, in source
order: `&` then `<` then `>` then `"` then `'` then `/`. -/
def sanitizeSeq (l : List Char) : List Char :=
  replCh '/' "&#x2F;".data
    (replCh aposChar "&#x27;".data
      (replCh quoteChar "&quot;".data
        (replCh '>' "&gt;".data
          (replCh '<' "&lt;".data
            (replCh '&' "&amp;".data l)))))

/-- `sanitizeHtml` from the source: `if (!str) return ''` (missing or empty
input maps to the empty string), otherwise the six global replacements. -/
def sanitizeHtml (s : Option String) : String :=
  match s with
  | none => ""
  | some str => if str = "" then "" else ⟨sanitizeSeq str.data⟩

/-- Escape of one character, as the spec describes it: the six special
characters map to their HTML entities (ampersand first in precedence),
every other character maps to itself. -/
def escC (c : Char) : List Char :=
  if c = '&' then "&amp;".data
  else if c = '<' then "&lt;".data
  else if c = '>' then "&gt;".data
  else if c = quoteChar then "&quot;".data
  else if c = aposChar then "&#x27;".data
  else if c = '/' then "&#x2F;".data
  else [c]

/-- A single left-to-right pass applying `escC` to each character: the
sanitizer as the spec's words describe it. -/
def escapeChars : List Char → List Char
  | [] => []
  | c :: cs => escC c ++ escapeChars cs

/-- The spec's sanitizer on strings: one left-to-right pass. -/
def specEscape (s : String) : String := ⟨escapeChars s.data⟩

/-! ### Field validation (`/api/contact` handler, server.js lines 150–167) -/

/-- ASCII whitespace as matched by the regex class `\s` (the test inputs of
this development are ASCII, so the Unicode space members of `\s` are not
modelled). -/
def isJsSpace (c : Char) : Bool :=
  c == ' ' || c == '\t' || c == '\n' || c == '\r' || c == '\x0B' || c == '\x0C'

/-- Membership in the regex character class `[^\s@]`. -/
def okChar (c : Char) : Bool := !(isJsSpace c) && !(c == '@')

/-- Split a character list at its first `'@'`: returns the part before and
the part after, or `none` when there is no `'@'`. -/
def splitAtAt : List Char → Option (List Char × List Char)
  | [] => none
  | c :: cs =>
      if c = '@' then some ([], cs)
      else (splitAtAt cs).map (fun pr => (c :: pr.1, pr.2))

/-- Whether the list contains a `'.'` at some position other than the last. -/
def hasDotNotLast : List Char → Bool
  | [] => false
  | c :: cs => (c == '.' && !cs.isEmpty) || hasDotNotLast cs

/-- The email regex of the source, `^[^\s@]+@[^\s@]+\.[^\s@]+$`:
a nonempty run of `[^\s@]` characters, a literal `'@'`, then a part that is
all `[^\s@]` characters and contains a `'.'` that is neither its first nor
its last character. -/
def emailRegexTest (l : List Char) : Bool :=
  match splitAtAt l with
  | none => false
  | some (a, b) =>
      !a.isEmpty && a.all okChar && b.all okChar &&
        (match b with
         | [] => false
         | _ :: cs => hasDotNotLast cs)

/-- The email shape as the spec words it: one-or-more non-whitespace-non-`@`
characters, `@`, one-or-more such characters, `.`, one-or-more such
characters. -/
def emailShapeSpec (l : List Char) : Prop :=
  ∃ a p q : List Char,
    l = a ++ '@' :: (p ++ '.' :: q) ∧ a ≠ [] ∧ p ≠ [] ∧ q ≠ [] ∧
      a.all okChar = true ∧ p.all okChar = true ∧ q.all okChar = true

/-- The JSON body of a contact request; a field a client did not send is
`none`. -/
structure Body where
  name : Option String
  email : Option String
  phone : Option String
  company : Option String
  service : Option String
  message : Option String
deriving DecidableEq

/-- JS falsiness of a possibly-missing string: `!s` holds when the field is
absent or the empty string. -/
def jsFalsy (o : Option String) : Bool := o.getD "" == ""

/-- The two field-validation failures of the contact handler. -/
inductive FieldError where
  | missingRequired
  | invalidEmail
deriving DecidableEq

/-- Field validation of the contact handler: `if (!name || !email ||
!message)` rejects first, then the email regex is tested; the optional
fields phone, company and service are not examined. -/
def validateFields (b : Body) : Option FieldError :=
  if jsFalsy b.name || jsFalsy b.email || jsFalsy b.message then
    some FieldError.missingRequired
  else if !emailRegexTest (b.email.getD "").data then
    some FieldError.invalidEmail
  else none

/-! ### CSRF token store (server.js lines 13–14, 64–97) -/

/-- A value of the `csrfTokens` map: the fingerprint string recorded at
issuance and the expiry timestamp. -/
structure Entry where
  clientId : String
  expires : Nat
deriving DecidableEq

/-- The `csrfTokens` JS `Map`, modelled extensionally as a partial function
from token strings to entries. -/
abbrev Store : Type := String → Option Entry

/-- `Map.set`. -/
def mapSet (k : String) (v : Entry) (s : Store) : Store :=
  fun k2 => if k2 = k then some v else s k2

/-- `Map.delete`. -/
def mapDelete (k : String) (s : Store) : Store :=
  fun k2 => if k2 = k then none else s k2

/-- The cleanup loop of the token-issuance handler: every entry whose
expiry lies strictly in the past is deleted. -/
def sweepExpired (now : Nat) (s : Store) : Store :=
  fun k =>
    match s k with
    | some e => if e.expires < now then none else some e
    | none => none

/-- Store effect of `GET /api/csrf-token`: record the freshly generated
`token` with fingerprint `ip ++ "-" ++ now` and a one-hour expiry
(`now + 3600000`), then sweep expired entries.  The random token itself is
a parameter, since `crypto.randomBytes` is not modelled. -/
def issueToken (token ip : String) (now : Nat) (s : Store) : Store :=
  sweepExpired now
    (mapSet token { clientId := ip ++ "-" ++ toString now, expires := now + 3600000 } s)

/-- An incoming HTTP request as the contact pipeline sees it: the client
address, the `X-CSRF-Token` header (if sent) and the JSON body. -/
structure Request where
  ip : String
  csrfHeader : Option String
  body : Body

/-- Outcome of the CSRF middleware: pass (`next()` called) or an error
response with its HTTP status and message. -/
inductive CsrfResult where
  | ok
  | err (status : Nat) (msg : String)
deriving DecidableEq

/-- The `validateCsrf` middleware.  `!token || !csrfTokens.has(token)`
yields a 403 without touching the store; a stored but expired token yields
a 403 and is deleted; otherwise the token is deleted (one-time use) and
the request passes. -/
def validateCsrf (req : Request) (s : Store) (now : Nat) : CsrfResult × Store :=
  if req.csrfHeader.getD "" = "" then
    (CsrfResult.err 403 "Invalid or missing CSRF token", s)
  else
    match s (req.csrfHeader.getD "") with
    | none => (CsrfResult.err 403 "Invalid or missing CSRF token", s)
    | some e =>
        if e.expires < now then
          (CsrfResult.err 403 "CSRF token expired", mapDelete (req.csrfHeader.getD "") s)
        else (CsrfResult.ok, mapDelete (req.csrfHeader.getD "") s)

/-! ### Rate limiter (server.js lines 57–62; algorithm modelled from the spec) -/

/-- The configured window: `15 * 60 * 1000` milliseconds. -/
def windowMs : Nat := 15 * 60 * 1000

/-- The configured per-window limit: 5 requests. -/
def maxRequests : Nat := 5

/-- Per-address rate state, the RateWindow of the spec. -/
structure RateWindow where
  count : Nat
  windowStart : Nat
deriving DecidableEq

/-- Modelled from the spec: the algorithm of the `express-rate-limit`
middleware is a dependency, not part of this repository, so the admission
step follows the specified RateWindow invariant — the count resets when the
current time exceeds `windowStart` plus the window duration, and a request
is rejected once the count exceeds `maxRequests` within the window.  The
window and limit constants come from the source configuration. -/
def rateAdmit (w : Option RateWindow) (now : Nat) : RateWindow × Bool :=
  match w with
  | none => ({ count := 1, windowStart := now }, true)
  | some w =>
      if w.windowStart + windowMs < now then ({ count := 1, windowStart := now }, true)
      else ({ count := w.count + 1, windowStart := w.windowStart },
            decide (w.count + 1 ≤ maxRequests))

/-! ### Contact pipeline (`POST /api/contact`, server.js lines 139–254) -/

/-- The environment configuration the handler reads. -/
structure Env where
  EMAIL_USER : String
  COMPANY_EMAIL : String
deriving DecidableEq

/-- The sanitized copy of the submission built by the handler. -/
structure SanitizedBody where
  name : String
  email : String
  phone : String
  company : String
  service : String
  message : String
deriving DecidableEq

/-- `sanitizedData`: every field passed through `sanitizeHtml`. -/
def sanitizeAll (b : Body) : SanitizedBody :=
  { name := sanitizeHtml b.name
    email := sanitizeHtml b.email
    phone := sanitizeHtml b.phone
    company := sanitizeHtml b.company
    service := sanitizeHtml b.service
    message := sanitizeHtml b.message }

/-- An email document handed to the transport.  The source fields `from`
and `to` are named `fromAddr` and `toAddr` here because `from` is reserved
in Lean. -/
structure Mail where
  fromAddr : String
  toAddr : String
  subject : String
  html : String
deriving DecidableEq

/-- Body of the notification email to the company (`companyMailOptions.html`),
with the conditional phone, company and service lines. -/
def companyHtml (d : SanitizedBody) : String :=
  String.intercalate "\n"
    [ "<div style=\"font-family: Arial, sans-serif; max-width: 600px; margin: 0 auto;\">"
    , "<h2 style=\"color: #2563eb;\">New Contact Form Submission</h2>"
    , "<div style=\"background-color: #f9fafb; padding: 20px; border-radius: 8px; margin: 20px 0;\">"
    , "<p><strong>Name:</strong> " ++ d.name ++ "</p>"
    , "<p><strong>Email:</strong> " ++ d.email ++ "</p>"
    , (if d.phone ≠ "" then "<p><strong>Phone:</strong> " ++ d.phone ++ "</p>" else "")
    , (if d.company ≠ "" then "<p><strong>Company:</strong> " ++ d.company ++ "</p>" else "")
    , (if d.service ≠ "" then "<p><strong>Service Interested In:</strong> " ++ d.service ++ "</p>" else "")
    , "</div>"
    , "<div style=\"margin: 20px 0;\">"
    , "<h3 style=\"color: #2563eb;\">Message:</h3>"
    , "<p style=\"background-color: #f9fafb; padding: 15px; border-radius: 8px; white-space: pre-wrap;\">" ++ d.message ++ "</p>"
    , "</div>"
    , "<hr style=\"border: none; border-top: 1px solid #e5e7eb; margin: 20px 0;\">"
    , "<p style=\"color: #6b7280; font-size: 12px;\">"
    , "This email was sent from the COA Services contact form."
    , "</p>"
    , "</div>" ]

/-- Body of the auto-reply email (`customerMailOptions.html`). -/
def customerHtml (d : SanitizedBody) : String :=
  String.intercalate "\n"
    [ "<div style=\"font-family: Arial, sans-serif; max-width: 600px; margin: 0 auto;\">"
    , "<h2 style=\"color: #2563eb;\">Thank You for Contacting Us!</h2>"
    , "<p>Dear " ++ d.name ++ ",</p>"
    , "<p>Thank you for reaching out to COA Services. We have received your message and will get back to you as soon as possible, typically within 1 business day.</p>"
    , "<div style=\"background-color: #f9fafb; padding: 20px; border-radius: 8px; margin: 20px 0;\">"
    , "<h3 style=\"color: #2563eb; margin-top: 0;\">Your Message:</h3>"
    , "<p style=\"white-space: pre-wrap;\">" ++ d.message ++ "</p>"
    , "</div>"
    , "<p>If you have any urgent concerns, please don" ++ aposChar.toString ++ "t hesitate to call us during business hours.</p>"
    , "<p>Best regards,<br>"
    , "<strong>COA Services Team</strong></p>"
    , "<hr style=\"border: none; border-top: 1px solid #e5e7eb; margin: 20px 0;\">"
    , "<p style=\"color: #6b7280; font-size: 12px;\">"
    , "This is an automated response. Please do not reply to this email."
    , "</p>"
    , "</div>" ]

/-- `companyMailOptions`: from the configured account, to the configured
company address, subject naming the sanitized submitter name. -/
def companyMail (env : Env) (d : SanitizedBody) : Mail :=
  { fromAddr := env.EMAIL_USER
    toAddr := env.COMPANY_EMAIL
    subject := "New Contact Form Submission from " ++ d.name
    html := companyHtml d }

/-- `customerMailOptions`: to the original (unescaped) submitted email
address, fixed thank-you subject. -/
def customerMail (env : Env) (origEmail : String) (d : SanitizedBody) : Mail :=
  { fromAddr := env.EMAIL_USER
    toAddr := origEmail
    subject := "Thank you for contacting COA Services"
    html := customerHtml d }

/-- An HTTP response as the client observes it: status code plus the
uniform JSON body fields. -/
structure Resp where
  status : Nat
  success : Bool
  message : String
deriving DecidableEq

/-- Observable events of one contact-request execution: the moment field
validation begins, and each attempted mail send. -/
inductive Event where
  | fieldValidationStarted
  | send (m : Mail)
deriving DecidableEq

/-- Whether an event is a mail-send attempt. -/
def isSend : Event → Bool
  | Event.send _ => true
  | _ => false

/-- The 500 response produced by the catch block when a send throws. -/
def sendFailResp : Resp :=
  { status := 500, success := false
    message := "Failed to send message. Please try again later." }

/-- Full state and trace produced by one run of the contact endpoint. -/
structure PipeOut where
  resp : Resp
  store : Store
  rate : Option RateWindow
  events : List Event

/-- The `POST /api/contact` middleware chain, in source order: rate-limit
admission, the CSRF middleware, the configuration check, field validation,
sanitization, then the two awaited sends.  `send1Ok`/`send2Ok` are the
outcomes the external transport would return for the first and second
`sendMail` call; a failed send throws, so the second send is reached only
when the first succeeded, and either failure lands in the catch block. -/
def contactPipeline (env : Env) (emailConfigValid : Bool) (req : Request)
    (rate : Option RateWindow) (store : Store) (now : Nat)
    (send1Ok send2Ok : Bool) : PipeOut :=
  let ra := rateAdmit rate now
  if ra.2 = false then
    { resp := { status := 429, success := false
                message := "Too many contact requests from this IP, please try again later." }
      store := store, rate := some ra.1, events := [] }
  else
    match validateCsrf req store now with
    | (CsrfResult.err st msg, store1) =>
        { resp := { status := st, success := false, message := msg }
          store := store1, rate := some ra.1, events := [] }
    | (CsrfResult.ok, store1) =>
        if emailConfigValid = false then
          { resp := { status := 503, success := false
                      message := "Email service is temporarily unavailable. Please try again later." }
            store := store1, rate := some ra.1, events := [] }
        else
          match validateFields req.body with
          | some FieldError.missingRequired =>
              { resp := { status := 400, success := false
                          message := "Please provide name, email, and message." }
                store := store1, rate := some ra.1
                events := [Event.fieldValidationStarted] }
          | some FieldError.invalidEmail =>
              { resp := { status := 400, success := false
                          message := "Please provide a valid email address." }
                store := store1, rate := some ra.1
                events := [Event.fieldValidationStarted] }
          | none =>
              let d := sanitizeAll req.body
              let m1 := companyMail env d
              let m2 := customerMail env (req.body.email.getD "") d
              if send1Ok = false then
                { resp := sendFailResp, store := store1, rate := some ra.1
                  events := [Event.fieldValidationStarted, Event.send m1] }
              else if send2Ok = false then
                { resp := sendFailResp, store := store1, rate := some ra.1
                  events := [Event.fieldValidationStarted, Event.send m1, Event.send m2] }
              else
                { resp := { status := 200, success := true
                            message := "Message sent successfully!" }
                  store := store1, rate := some ra.1
                  events := [Event.fieldValidationStarted, Event.send m1, Event.send m2] }

/-- A request body with no fields sent, used by concrete instances. -/
def emptyBody : Body :=
  { name := none, email := none, phone := none, company := none,
    service := none, message := none }

/-- A body with the required fields filled and email lacking a dot part. -/
def bodyAB : Body :=
  { name := some "X", email := some "a@b", phone := none, company := none,
    service := none, message := some "hi" }

/-- The empty token store. -/
def emptyStore : Store := fun _ => none

/-- A concrete request carrying token "t", used by concrete instances. -/
def reqT : Request :=
  { ip := "client2", csrfHeader := some "t", body := emptyBody }

/-- A concrete store holding only the token "tok" with expiry 1000. -/
def storeTok : Store :=
  fun k => if k = "tok" then some { clientId := "c", expires := 1000 } else none

/-- A concrete request with no CSRF header. -/
def reqNone : Request := { ip := "c1", csrfHeader := none, body := emptyBody }

/-- A concrete request carrying the token "zzz". -/
def reqZzz : Request := { ip := "c2", csrfHeader := some "zzz", body := emptyBody }

/-- A concrete request carrying the token "tok". -/
def reqTok : Request := { ip := "c3", csrfHeader := some "tok", body := emptyBody }

/-- A store holding token "t" with a fingerprint recorded for one address. -/
def storeFpA : Store :=
  fun k => if k = "t" then some { clientId := "10.0.0.1-1", expires := 100 } else none

/-- The same store up to the recorded fingerprint, for another address. -/
def storeFpB : Store :=
  fun k => if k = "t" then some { clientId := "10.9.9.9-2", expires := 100 } else none

/-- A request for token "t" from the first address. -/
def reqIpA : Request := { ip := "10.0.0.1", csrfHeader := some "t", body := emptyBody }

/-- A request for token "t" from the second address. -/
def reqIpB : Request := { ip := "10.9.9.9", csrfHeader := some "t", body := emptyBody }

/-- Admission outcomes of a sequence of requests from one address, each
folding the rate window forward. -/
def rateAdmitSeq : Option RateWindow → List Nat → List Bool
  | _, [] => []
  | w, t :: ts =>
      (rateAdmit w t).2 :: rateAdmitSeq (some (rateAdmit w t).1) ts

/-- A concrete mail environment configuration. -/
def envC : Env := { EMAIL_USER := "relay@x.co", COMPANY_EMAIL := "biz@x.co" }

/-- A body that passes field validation. -/
def validBody : Body :=
  { name := some "X", email := some "a@b.co", phone := none, company := none,
    service := none, message := some "hi" }

/-- A request carrying the stored token "tok" and a valid body. -/
def reqValid : Request :=
  { ip := "9.9.9.9", csrfHeader := some "tok", body := validBody }

/-! ### Helper lemmas -/

theorem replCh_append (c : Char) (r a b : List Char) :
    replCh c r (a ++ b) = replCh c r a ++ replCh c r b := by
  induction a with
  | nil => rfl
  | cons x xs ih => simp [replCh, ih]

theorem sanitizeSeq_append (a b : List Char) :
    sanitizeSeq (a ++ b) = sanitizeSeq a ++ sanitizeSeq b := by
  simp [sanitizeSeq, replCh_append]

theorem sanitizeSeq_singleton (x : Char) : sanitizeSeq [x] = escC x := by
  by_cases h1 : x = '&'
  · subst h1; decide
  by_cases h2 : x = '<'
  · subst h2; decide
  by_cases h3 : x = '>'
  · subst h3; decide
  by_cases h4 : x = quoteChar
  · subst h4; decide
  by_cases h5 : x = aposChar
  · subst h5; decide
  by_cases h6 : x = '/'
  · subst h6; decide
  simp [sanitizeSeq, replCh, escC, h1, h2, h3, h4, h5, h6]

theorem sanitizeSeq_eq_escapeChars (l : List Char) :
    sanitizeSeq l = escapeChars l := by
  induction l with
  | nil => rfl
  | cons x xs ih =>
      have h : sanitizeSeq (x :: xs) = sanitizeSeq ([x] ++ xs) := rfl
      rw [h, sanitizeSeq_append, sanitizeSeq_singleton]
      show escC x ++ sanitizeSeq xs = escC x ++ escapeChars xs
      rw [ih]

theorem escC_of_not_special {c : Char} (h : c ∉ specials) : escC c = [c] := by
  simp only [specials, List.mem_cons, List.not_mem_nil, or_false, not_or] at h
  obtain ⟨h1, h2, h3, h4, h5, h6⟩ := h
  simp [escC, h1, h2, h3, h4, h5, h6]

theorem escC_ne_nil (c : Char) : escC c ≠ [] := by
  unfold escC
  repeat' split
  all_goals first | decide | simp

theorem escC_length_pos (c : Char) : 1 ≤ (escC c).length :=
  List.length_pos.mpr (escC_ne_nil c)

theorem escapeChars_length_ge (l : List Char) : l.length ≤ (escapeChars l).length := by
  induction l with
  | nil => simp [escapeChars]
  | cons x xs ih =>
      have hx := escC_length_pos x
      simp only [escapeChars, List.length_append, List.length_cons]
      omega

theorem escapeChars_length_lt {l : List Char} {c : Char} (hc : c ∈ l)
    (h2 : 2 ≤ (escC c).length) : l.length < (escapeChars l).length := by
  induction l with
  | nil => cases hc
  | cons x xs ih =>
      rcases List.mem_cons.mp hc with h | h
      · subst h
        have := escapeChars_length_ge xs
        simp only [escapeChars, List.length_append, List.length_cons]
        omega
      · have hx := escC_length_pos x
        have := ih h
        simp only [escapeChars, List.length_append, List.length_cons]
        omega

theorem amp_mem_escapeChars {l : List Char} (h : '&' ∈ l) : '&' ∈ escapeChars l := by
  induction l with
  | nil => cases h
  | cons x xs ih =>
      rcases List.mem_cons.mp h with h | h
      · subst h
        exact List.mem_append_left _ (by decide)
      · exact List.mem_append_right _ (ih h)

theorem escapeChars_id {l : List Char} (h : ∀ c ∈ l, c ∉ specials) :
    escapeChars l = l := by
  induction l with
  | nil => rfl
  | cons x xs ih =>
      have hx : escC x = [x] := escC_of_not_special (h x (List.mem_cons_self x xs))
      have hxs := ih (fun c hc => h c (List.mem_cons_of_mem x hc))
      simp [escapeChars, hx, hxs]

theorem sanitizeHtml_some_eq (s : String) : sanitizeHtml (some s) = specEscape s := by
  by_cases hs : s = ""
  · subst hs; decide
  · show (if s = "" then "" else (⟨sanitizeSeq s.data⟩ : String)) = specEscape s
    rw [if_neg hs, sanitizeSeq_eq_escapeChars]
    rfl

/-! ### C4 -/

/-- C4: the sanitizer replaces exactly the six characters
`& < > " ' /` with `&amp; &lt; &gt; &quot; &#x27; &#x2F;` and leaves every
other character unchanged; its result on every input string equals a single
left-to-right pass in which the ampersand substitution takes precedence, so
entities introduced by later substitutions are not double-escaped; missing
input maps to the empty string. -/
theorem sanitizeHtml_single_pass :
    (∀ s : String, sanitizeHtml (some s) = specEscape s) ∧
    sanitizeHtml none = "" ∧
    (∀ c : Char, c ∉ specials → escC c = [c]) ∧
    (escC '&' = "&amp;".data ∧ escC '<' = "&lt;".data ∧ escC '>' = "&gt;".data ∧
     escC quoteChar = "&quot;".data ∧ escC aposChar = "&#x27;".data ∧
     escC '/' = "&#x2F;".data) := by
  refine ⟨sanitizeHtml_some_eq, rfl, ?_, by decide, by decide, by decide, by decide,
    by decide, by decide⟩
  intro c hc
  exact escC_of_not_special hc

/-- Witness for C4 at concrete inputs: `'a'` is not special and is left
unchanged by the per-character escape. -/
theorem sanitizeHtml_single_pass_witness :
    ('a' ∉ specials) ∧ escC 'a' = ['a'] ∧ sanitizeHtml (some "a&b") = specEscape "a&b" :=
  ⟨by decide, sanitizeHtml_single_pass.2.2.1 'a' (by decide),
    sanitizeHtml_single_pass.1 "a&b"⟩

/-! ### C5 -/

/-- C5: on a string containing none of the six special characters the
sanitizer is the identity (hence idempotent there), while for a string
containing an ampersand, escaping twice differs from escaping once. -/
theorem sanitizeHtml_idempotence :
    (∀ s : String, (∀ c ∈ s.data, c ∉ specials) →
      sanitizeHtml (some s) = s ∧
      sanitizeHtml (some (sanitizeHtml (some s))) = sanitizeHtml (some s)) ∧
    (∀ s : String, '&' ∈ s.data →
      sanitizeHtml (some (sanitizeHtml (some s))) ≠ sanitizeHtml (some s)) := by
  constructor
  · intro s h
    have h1 : sanitizeHtml (some s) = s := by
      rw [sanitizeHtml_some_eq]
      show (⟨escapeChars s.data⟩ : String) = s
      rw [escapeChars_id h]
    refine ⟨h1, ?_⟩
    rw [h1]
    exact h1
  · intro s h
    have h1 : sanitizeHtml (some s) = specEscape s := sanitizeHtml_some_eq s
    have h2 : sanitizeHtml (some (specEscape s)) = specEscape (specEscape s) :=
      sanitizeHtml_some_eq (specEscape s)
    rw [h1, h2]
    intro heq
    have hdata : escapeChars (escapeChars s.data) = escapeChars s.data :=
      congrArg String.data heq
    have hamp : '&' ∈ escapeChars s.data := amp_mem_escapeChars h
    have hlt : (escapeChars s.data).length < (escapeChars (escapeChars s.data)).length :=
      escapeChars_length_lt hamp (by decide)
    rw [hdata] at hlt
    omega

/-- Witness for C5 at concrete inputs: `"abc"` has no special characters
and is fixed by the sanitizer; `"a&b"` contains an ampersand and double
escaping it differs from escaping it once. -/
theorem sanitizeHtml_idempotence_witness :
    sanitizeHtml (some "abc") = "abc" ∧
    sanitizeHtml (some (sanitizeHtml (some "a&b"))) ≠ sanitizeHtml (some "a&b") :=
  ⟨(sanitizeHtml_idempotence.1 "abc" (by decide)).1,
    sanitizeHtml_idempotence.2 "a&b" (by decide)⟩

theorem okChar_dot : okChar '.' = true := by decide

theorem not_at_of_all_okChar {a : List Char} (h : a.all okChar = true) : '@' ∉ a := by
  intro hmem
  have := List.all_eq_true.mp h '@' hmem
  exact absurd this (by decide)

theorem splitAtAt_iff (l a b : List Char) :
    splitAtAt l = some (a, b) ↔ (l = a ++ '@' :: b ∧ '@' ∉ a) := by
  induction l generalizing a with
  | nil =>
      simp only [splitAtAt]
      constructor
      · intro h; cases h
      · rintro ⟨h, -⟩
        exact absurd h (by simp)
  | cons c cs ih =>
      by_cases hc : c = '@'
      · subst hc
        simp only [splitAtAt, eq_self_iff_true, if_true, Option.some.injEq, Prod.mk.injEq]
        constructor
        · rintro ⟨ha, hb⟩
          subst ha; subst hb
          exact ⟨rfl, by simp⟩
        · rintro ⟨heq, hmem⟩
          cases a with
          | nil =>
              simp only [List.nil_append, List.cons.injEq] at heq
              exact ⟨rfl, heq.2⟩
          | cons a0 a2 =>
              simp only [List.cons_append, List.cons.injEq] at heq
              refine absurd ?_ hmem
              rw [← heq.1]
              exact List.mem_cons_self _ _
      · simp only [splitAtAt, if_neg hc]
        constructor
        · intro h
          rcases Option.map_eq_some'.mp h with ⟨⟨a2, b2⟩, hsplit, heq⟩
          simp only [Prod.mk.injEq] at heq
          rcases heq with ⟨ha, hb⟩
          subst ha; subst hb
          rcases (ih a2).mp hsplit with ⟨hl, hmem⟩
          refine ⟨by rw [hl]; rfl, ?_⟩
          intro hin
          rcases List.mem_cons.mp hin with h1 | h1
          · exact hc h1.symm
          · exact hmem h1
        · rintro ⟨heq, hmem⟩
          cases a with
          | nil =>
              simp only [List.nil_append, List.cons.injEq] at heq
              exact absurd heq.1 hc
          | cons a0 a2 =>
              simp only [List.cons_append, List.cons.injEq] at heq
              rcases heq with ⟨h1, h2⟩
              subst h1
              have hmem2 : '@' ∉ a2 := fun hin => hmem (List.mem_cons_of_mem _ hin)
              have : splitAtAt cs = some (a2, b) := (ih a2).mpr ⟨h2, hmem2⟩
              rw [this]
              rfl

theorem hasDotNotLast_iff (l : List Char) :
    hasDotNotLast l = true ↔ ∃ p q, l = p ++ '.' :: q ∧ q ≠ [] := by
  induction l with
  | nil =>
      simp only [hasDotNotLast]
      constructor
      · intro h; cases h
      · rintro ⟨p, q, h, -⟩
        exact absurd h (by simp)
  | cons c cs ih =>
      simp only [hasDotNotLast, Bool.or_eq_true, Bool.and_eq_true, beq_iff_eq,
        Bool.not_eq_true', List.isEmpty_eq_false]
      constructor
      · rintro (⟨hdot, hne⟩ | h)
        · exact ⟨[], cs, by rw [hdot]; rfl, hne⟩
        · rcases ih.mp h with ⟨p, q, heq, hq⟩
          exact ⟨c :: p, q, by rw [heq]; rfl, hq⟩
      · rintro ⟨p, q, heq, hq⟩
        cases p with
        | nil =>
            simp only [List.nil_append, List.cons.injEq] at heq
            refine Or.inl ⟨heq.1, ?_⟩
            rw [heq.2]
            exact hq
        | cons p0 p2 =>
            simp only [List.cons_append, List.cons.injEq] at heq
            exact Or.inr (ih.mpr ⟨p2, q, heq.2, hq⟩)

theorem emailRegexTest_iff (l : List Char) :
    emailRegexTest l = true ↔ emailShapeSpec l := by
  unfold emailRegexTest
  cases hsp : splitAtAt l with
  | none =>
      simp only []
      constructor
      · intro h; cases h
      · rintro ⟨a, p, q, heq, ha, hp, hq, hall, hpall, hqall⟩
        have : splitAtAt l = some (a, p ++ '.' :: q) :=
          (splitAtAt_iff l a (p ++ '.' :: q)).mpr ⟨heq, not_at_of_all_okChar hall⟩
        rw [hsp] at this
        cases this
  | some ab =>
      obtain ⟨a, b⟩ := ab
      rcases (splitAtAt_iff l a b).mp hsp with ⟨hl, hmem⟩
      simp only [Bool.and_eq_true, Bool.not_eq_true', List.isEmpty_eq_false]
      constructor
      · rintro ⟨⟨⟨hane, haall⟩, hball⟩, hdot⟩
        cases b with
        | nil => cases hdot
        | cons b0 cs =>
            rcases (hasDotNotLast_iff cs).mp hdot with ⟨p2, q, hcs, hq⟩
            refine ⟨a, b0 :: p2, q, ?_, hane, by simp, hq, haall, ?_, ?_⟩
            · rw [hl, hcs]; rfl
            · have : (b0 :: cs).all okChar = true := hball
              rw [hcs] at this
              simp only [List.all_cons, List.all_append, Bool.and_eq_true] at this
              simp only [List.all_cons, Bool.and_eq_true]
              exact ⟨this.1, this.2.1⟩
            · have : (b0 :: cs).all okChar = true := hball
              rw [hcs] at this
              simp only [List.all_cons, List.all_append, Bool.and_eq_true] at this
              exact this.2.2.2
      · rintro ⟨a2, p, q, heq, ha2, hp, hq, ha2all, hpall, hqall⟩
        have hsp2 : splitAtAt l = some (a2, p ++ '.' :: q) :=
          (splitAtAt_iff l a2 (p ++ '.' :: q)).mpr ⟨heq, not_at_of_all_okChar ha2all⟩
        rw [hsp] at hsp2
        injection hsp2 with hsp3
        injection hsp3 with hae hbe
        subst hae
        subst hbe
        refine ⟨⟨⟨ha2, ha2all⟩, ?_⟩, ?_⟩
        · simp only [List.all_append, List.all_cons, Bool.and_eq_true]
          exact ⟨hpall, okChar_dot, hqall⟩
        · cases p with
          | nil => exact absurd rfl hp
          | cons p0 p2 =>
              show hasDotNotLast (p2 ++ '.' :: q) = true
              exact (hasDotNotLast_iff _).mpr ⟨p2, q, rfl, hq⟩

/-! ### C6 -/

/-- C6: the validator fails with MissingRequiredField exactly when name,
email, or message is absent or empty; otherwise it fails with
InvalidEmailFormat exactly when the email does not match the shape
nonempty-non-whitespace-non-at, at sign, nonempty part, dot, nonempty part;
the concrete email "not-an-email" fails with InvalidEmailFormat while a
submission with email "a@b.co", name "X", message "hi" passes; the optional
fields phone, company and service are never examined. -/
theorem validateFields_spec :
    (∀ b : Body,
      (validateFields b = some FieldError.missingRequired ↔
        (jsFalsy b.name || jsFalsy b.email || jsFalsy b.message) = true) ∧
      ((jsFalsy b.name || jsFalsy b.email || jsFalsy b.message) = false →
        (validateFields b = some FieldError.invalidEmail ↔
          ¬ emailShapeSpec (b.email.getD "").data)) ∧
      (∀ p c s2, validateFields { b with phone := p, company := c, service := s2 } =
        validateFields b)) ∧
    validateFields { name := some "X", email := some "not-an-email", phone := none,
                     company := none, service := none, message := some "hi" } =
      some FieldError.invalidEmail ∧
    validateFields { name := some "X", email := some "a@b.co", phone := none,
                     company := none, service := none, message := some "hi" } = none ∧
    (∀ b : Body, jsFalsy b.email = true →
      validateFields b = some FieldError.missingRequired) := by
  refine ⟨?_, by decide, by decide, ?_⟩
  · intro b
    refine ⟨?_, ?_, ?_⟩
    · unfold validateFields
      by_cases h : (jsFalsy b.name || jsFalsy b.email || jsFalsy b.message) = true
      · rw [if_pos h]
        simp [h]
      · have hf : (jsFalsy b.name || jsFalsy b.email || jsFalsy b.message) = false :=
          Bool.eq_false_iff.mpr h
        rw [if_neg h, hf]
        simp only [Bool.false_eq_true, iff_false]
        intro hcontra
        by_cases hr : emailRegexTest (b.email.getD "").data = true
        · rw [hr] at hcontra
          simp at hcontra
        · have hrf : emailRegexTest (b.email.getD "").data = false :=
            Bool.eq_false_iff.mpr hr
          rw [hrf] at hcontra
          simp at hcontra
    · intro h
      unfold validateFields
      rw [if_neg (by rw [h]; exact Bool.false_ne_true)]
      by_cases hr : emailRegexTest (b.email.getD "").data = true
      · simp only [hr, Bool.not_true, Bool.false_eq_true, if_false]
        constructor
        · intro hcontra; cases hcontra
        · intro hns; exact absurd ((emailRegexTest_iff _).mp hr) hns
      · simp only [Bool.not_eq_true] at hr
        simp only [hr, Bool.not_false, if_true]
        constructor
        · intro _
          intro hshape
          have := (emailRegexTest_iff ((b.email.getD "").data)).mpr hshape
          rw [hr] at this
          cases this
        · intro _; trivial
    · intro p c s2
      rfl
  · intro b h
    unfold validateFields
    rw [if_pos (by rw [h]; simp)]

/-- Witness for C6 at a concrete body: required fields present, email
"a@b" (no dot part), so the invalid-email iff applies. -/
theorem validateFields_spec_witness :
    ((jsFalsy bodyAB.name || jsFalsy bodyAB.email || jsFalsy bodyAB.message) = false) ∧
    (validateFields bodyAB = some FieldError.invalidEmail ↔
      ¬ emailShapeSpec (bodyAB.email.getD "").data) :=
  ⟨by decide, (validateFields_spec.1 bodyAB).2.1 (by decide)⟩

/-! ### CSRF lemmas -/

theorem mapDelete_self (k : String) (s : Store) : mapDelete k s k = none := by
  simp [mapDelete]

theorem issueToken_get_self (token ip : String) (now : Nat) (s : Store) :
    issueToken token ip now s token =
      some { clientId := ip ++ "-" ++ toString now, expires := now + 3600000 } := by
  have h : ¬ (now + 3600000 < now) := by omega
  simp [issueToken, sweepExpired, mapSet, h]

theorem validateCsrf_passes (req : Request) (s : Store) (now : Nat) (t : String)
    (hreq : req.csrfHeader = some t) (htne : t ≠ "") (e : Entry) (hs : s t = some e)
    (hexp : ¬ e.expires < now) :
    validateCsrf req s now = (CsrfResult.ok, mapDelete t s) := by
  unfold validateCsrf
  rw [hreq]
  simp only [Option.getD_some]
  rw [if_neg htne, hs]
  simp [hexp]

theorem validateCsrf_expired (req : Request) (s : Store) (now : Nat) (t : String)
    (hreq : req.csrfHeader = some t) (htne : t ≠ "") (e : Entry) (hs : s t = some e)
    (hexp : e.expires < now) :
    validateCsrf req s now = (CsrfResult.err 403 "CSRF token expired", mapDelete t s) := by
  unfold validateCsrf
  rw [hreq]
  simp only [Option.getD_some]
  rw [if_neg htne, hs]
  simp [hexp]

theorem validateCsrf_unknown (req : Request) (s : Store) (now : Nat) (t : String)
    (hreq : req.csrfHeader = some t) (htne : t ≠ "") (hs : s t = none) :
    validateCsrf req s now = (CsrfResult.err 403 "Invalid or missing CSRF token", s) := by
  unfold validateCsrf
  rw [hreq]
  simp only [Option.getD_some]
  rw [if_neg htne, hs]

theorem validateCsrf_missing (req : Request) (s : Store) (now : Nat)
    (hreq : req.csrfHeader.getD "" = "") :
    validateCsrf req s now = (CsrfResult.err 403 "Invalid or missing CSRF token", s) := by
  unfold validateCsrf
  rw [if_pos hreq]

/-! ### C1 -/

/-- C1: a token recorded by the issuance operation validates successfully
on its first (pre-expiry) validation, which removes it from the store;
afterwards the token is absent, and every validation of a token absent
from the store fails with the 403 invalid-or-missing outcome and leaves
the store unchanged — so every subsequent validation of the same token
fails. -/
theorem issued_token_single_use
    (token ip : String) (now1 now2 : Nat) (s : Store) (req : Request)
    (htok : token ≠ "") (hreq : req.csrfHeader = some token)
    (hexp : now2 ≤ now1 + 3600000) :
    (validateCsrf req (issueToken token ip now1 s) now2).1 = CsrfResult.ok ∧
    (validateCsrf req (issueToken token ip now1 s) now2).2 token = none ∧
    (∀ (req2 : Request) (s2 : Store) (now3 : Nat), req2.csrfHeader = some token →
      s2 token = none →
      validateCsrf req2 s2 now3 =
        (CsrfResult.err 403 "Invalid or missing CSRF token", s2)) := by
  have hget := issueToken_get_self token ip now1 s
  have hok := validateCsrf_passes req (issueToken token ip now1 s) now2 token hreq htok
    _ hget (by show ¬ now1 + 3600000 < now2; omega)
  refine ⟨by rw [hok], ?_, ?_⟩
  · rw [hok]
    exact mapDelete_self token _
  · intro req2 s2 now3 hreq2 habsent
    exact validateCsrf_unknown req2 s2 now3 token hreq2 htok habsent

/-- Witness for C1: token "t" issued at time 0 into the empty store and
validated at time 10 succeeds. -/
theorem issued_token_single_use_witness :
    ("t" : String) ≠ "" ∧
    (validateCsrf reqT (issueToken "t" "1.2.3.4" 0 emptyStore) 10).1 = CsrfResult.ok :=
  ⟨by decide,
    (issued_token_single_use "t" "1.2.3.4" 0 10 emptyStore reqT
      (by decide) rfl (by omega)).1⟩

/-! ### C2 -/

/-- C2 counterexample: a request carrying no token and a request carrying a
token unknown to the store produce literally the same outcome — the same
403 response body and the same unchanged store — so the MissingToken and
UnknownToken failure reasons are not three pairwise distinct outcomes in
the code. -/
theorem csrf_missing_unknown_not_distinct :
    validateCsrf reqNone storeTok 50 = validateCsrf reqZzz storeTok 50 ∧
    (validateCsrf reqNone storeTok 50).1 =
      CsrfResult.err 403 "Invalid or missing CSRF token" :=
  ⟨rfl, rfl⟩

/-- C2 (amended): CSRF validation fails with the 403
invalid-or-missing response, leaving the store unchanged, both when the
request carries no token and when the token is unknown to the store (the
two cases yield the identical outcome); it fails with the distinct 403
expired response when the token is stored but past its expiry, deleting
the token as a side effect of that failed check; in every other case it
deletes the token and succeeds.  Only the two failure responses are
distinct. -/
theorem validateCsrf_outcomes (req : Request) (s : Store) (now : Nat) :
    (req.csrfHeader.getD "" = "" →
      validateCsrf req s now =
        (CsrfResult.err 403 "Invalid or missing CSRF token", s)) ∧
    (∀ t, req.csrfHeader = some t → t ≠ "" → s t = none →
      validateCsrf req s now =
        (CsrfResult.err 403 "Invalid or missing CSRF token", s)) ∧
    (∀ t e, req.csrfHeader = some t → t ≠ "" → s t = some e → e.expires < now →
      validateCsrf req s now =
        (CsrfResult.err 403 "CSRF token expired", mapDelete t s)) ∧
    (∀ t e, req.csrfHeader = some t → t ≠ "" → s t = some e → ¬ e.expires < now →
      validateCsrf req s now = (CsrfResult.ok, mapDelete t s)) ∧
    CsrfResult.err 403 "Invalid or missing CSRF token" ≠
      CsrfResult.err 403 "CSRF token expired" :=
  ⟨fun h => validateCsrf_missing req s now h,
    fun t ht htne hs => validateCsrf_unknown req s now t ht htne hs,
    fun t e ht htne hs hexp => validateCsrf_expired req s now t ht htne e hs hexp,
    fun t e ht htne hs hexp => validateCsrf_passes req s now t ht htne e hs hexp,
    by decide⟩

/-- Witness for the amended C2: the stored token "tok" (expiry 1000)
validated at time 5000 yields the expired outcome and is deleted. -/
theorem validateCsrf_outcomes_witness :
    validateCsrf reqTok storeTok 5000 =
      (CsrfResult.err 403 "CSRF token expired", mapDelete "tok" storeTok) :=
  (validateCsrf_outcomes reqTok storeTok 5000).2.2.1 "tok"
    { clientId := "c", expires := 1000 } rfl (by decide) rfl (by decide)

/-! ### C10 -/

theorem store_expires_mapDelete (t : String) (s1 s2 : Store)
    (hs : ∀ k, (s1 k).map Entry.expires = (s2 k).map Entry.expires) :
    ∀ k, ((mapDelete t s1) k).map Entry.expires =
         ((mapDelete t s2) k).map Entry.expires := by
  intro k
  unfold mapDelete
  by_cases hk : k = t
  · rw [if_pos hk, if_pos hk]
  · rw [if_neg hk, if_neg hk]
    exact hs k

/-- C10: the outcome of CSRF validation depends only on the presented
token string, the stored expiry map and the current time, never on the
requesting client address and never on the clientFingerprint recorded at
issuance: two requests presenting the same header, against stores equal up
to their recorded fingerprints, at the same time, yield the same result
and stores again equal up to fingerprints. -/
theorem validateCsrf_address_blind
    (req1 req2 : Request) (s1 s2 : Store) (now : Nat)
    (hh : req1.csrfHeader = req2.csrfHeader)
    (hs : ∀ k, (s1 k).map Entry.expires = (s2 k).map Entry.expires) :
    (validateCsrf req1 s1 now).1 = (validateCsrf req2 s2 now).1 ∧
    (∀ k, ((validateCsrf req1 s1 now).2 k).map Entry.expires =
          ((validateCsrf req2 s2 now).2 k).map Entry.expires) := by
  by_cases h0 : req2.csrfHeader.getD "" = ""
  · rw [validateCsrf_missing req1 s1 now (by rw [hh]; exact h0),
        validateCsrf_missing req2 s2 now h0]
    exact ⟨rfl, hs⟩
  · obtain ⟨t, ht2⟩ : ∃ t, req2.csrfHeader = some t := by
      cases hc : req2.csrfHeader with
      | none => rw [hc] at h0; exact absurd rfl h0
      | some t => exact ⟨t, rfl⟩
    have htne : t ≠ "" := by
      intro h
      rw [ht2, h] at h0
      exact h0 rfl
    have ht1 : req1.csrfHeader = some t := by rw [hh, ht2]
    have hk := hs t
    cases h1 : s1 t with
    | none =>
        cases h2 : s2 t with
        | none =>
            rw [validateCsrf_unknown req1 s1 now t ht1 htne h1,
                validateCsrf_unknown req2 s2 now t ht2 htne h2]
            exact ⟨rfl, hs⟩
        | some e2 =>
            rw [h1, h2] at hk
            simp at hk
    | some e1 =>
        cases h2 : s2 t with
        | none =>
            rw [h1, h2] at hk
            simp at hk
        | some e2 =>
            rw [h1, h2] at hk
            have hexp : e1.expires = e2.expires := by simpa using hk
            by_cases hlt : e2.expires < now
            · rw [validateCsrf_expired req1 s1 now t ht1 htne e1 h1
                  (by rw [hexp]; exact hlt),
                validateCsrf_expired req2 s2 now t ht2 htne e2 h2 hlt]
              exact ⟨rfl, store_expires_mapDelete t s1 s2 hs⟩
            · rw [validateCsrf_passes req1 s1 now t ht1 htne e1 h1
                  (by rw [hexp]; exact hlt),
                validateCsrf_passes req2 s2 now t ht2 htne e2 h2 hlt]
              exact ⟨rfl, store_expires_mapDelete t s1 s2 hs⟩

/-- Witness for C10: two requests from different addresses presenting the
same token against stores differing only in recorded fingerprints get the
same validation result. -/
theorem validateCsrf_address_blind_witness :
    (validateCsrf reqIpA storeFpA 50).1 = (validateCsrf reqIpB storeFpB 50).1 :=
  (validateCsrf_address_blind reqIpA reqIpB storeFpA storeFpB 50 rfl
    (by
      intro k
      by_cases hk : k = "t"
      · simp [storeFpA, storeFpB, hk]
      · simp [storeFpA, storeFpB, hk])).1

/-! ### C8 -/

theorem rateAdmit_in_window (w : RateWindow) (t : Nat)
    (h : ¬ w.windowStart + windowMs < t) :
    rateAdmit (some w) t =
      ({ count := w.count + 1, windowStart := w.windowStart },
       decide (w.count + 1 ≤ maxRequests)) := by
  simp only [rateAdmit]
  rw [if_neg h]

theorem rateAdmit_reset (w : RateWindow) (t : Nat)
    (h : w.windowStart + windowMs < t) :
    rateAdmit (some w) t = ({ count := 1, windowStart := t }, true) := by
  simp only [rateAdmit]
  rw [if_pos h]

/-- C8 (rate limiter modelled from the spec, constants from the source
configuration): six requests from one address, all within 15 minutes of
the first, see the first five admitted and the sixth rejected; a request
arriving strictly after windowStart plus the window duration resets the
window to a fresh one starting at that request, while a request within the
window keeps the window start, increments the count, and is admitted
exactly when the incremented count is at most 5. -/
theorem rate_limit_window (t1 t2 t3 t4 t5 t6 : Nat)
    (h2 : t2 ≤ t1 + windowMs) (h3 : t3 ≤ t1 + windowMs) (h4 : t4 ≤ t1 + windowMs)
    (h5 : t5 ≤ t1 + windowMs) (h6 : t6 ≤ t1 + windowMs) :
    rateAdmitSeq none [t1, t2, t3, t4, t5, t6] =
      [true, true, true, true, true, false] ∧
    (∀ (w : RateWindow) (t : Nat), w.windowStart + windowMs < t →
      rateAdmit (some w) t = ({ count := 1, windowStart := t }, true)) ∧
    (∀ (w : RateWindow) (t : Nat), ¬ w.windowStart + windowMs < t →
      (rateAdmit (some w) t).1.windowStart = w.windowStart ∧
      (rateAdmit (some w) t).1.count = w.count + 1 ∧
      ((rateAdmit (some w) t).2 = true ↔ w.count + 1 ≤ maxRequests)) := by
  refine ⟨?_, fun w t h => rateAdmit_reset w t h, fun w t h => ?_⟩
  · have n2 : ¬ (t1 + windowMs < t2) := by omega
    have n3 : ¬ (t1 + windowMs < t3) := by omega
    have n4 : ¬ (t1 + windowMs < t4) := by omega
    have n5 : ¬ (t1 + windowMs < t5) := by omega
    have n6 : ¬ (t1 + windowMs < t6) := by omega
    simp [rateAdmitSeq, rateAdmit, n2, n3, n4, n5, n6, maxRequests]
  · rw [rateAdmit_in_window w t h]
    refine ⟨rfl, rfl, ?_⟩
    exact decide_eq_true_iff

/-- Witness for C8: six immediate requests from a fresh window; the sixth
is rejected. -/
theorem rate_limit_window_witness :
    rateAdmitSeq none [0, 1, 2, 3, 4, 5] = [true, true, true, true, true, false] :=
  (rate_limit_window 0 1 2 3 4 5 (by decide) (by decide) (by decide) (by decide)
    (by decide)).1

/-! ### Contact pipeline claims -/

theorem validateCsrf_result_cases (req : Request) (s : Store) (now : Nat) :
    (validateCsrf req s now).1 = CsrfResult.ok ∨
    ∃ msg, (validateCsrf req s now).1 = CsrfResult.err 403 msg := by
  by_cases h0 : req.csrfHeader.getD "" = ""
  · rw [validateCsrf_missing req s now h0]
    exact Or.inr ⟨_, rfl⟩
  · obtain ⟨t, ht⟩ : ∃ t, req.csrfHeader = some t := by
      cases hc : req.csrfHeader with
      | none => rw [hc] at h0; exact absurd rfl h0
      | some t => exact ⟨t, rfl⟩
    have htne : t ≠ "" := by
      intro hte
      rw [ht, hte] at h0
      exact h0 rfl
    cases hs : s t with
    | none =>
        rw [validateCsrf_unknown req s now t ht htne hs]
        exact Or.inr ⟨_, rfl⟩
    | some e =>
        by_cases hlt : e.expires < now
        · rw [validateCsrf_expired req s now t ht htne e hs hlt]
          exact Or.inr ⟨_, rfl⟩
        · rw [validateCsrf_passes req s now t ht htne e hs hlt]
          exact Or.inl rfl

/-- C3: a contact request that fails rate-limit admission is answered 429
with an empty event trace and an untouched store; a rate-admitted request
whose CSRF validation does not pass is answered 403 with success false
and an empty event trace — neither field validation nor any mail send is
ever performed, so rate-limit admission and then CSRF validation strictly
precede field validation and dispatch. -/
theorem contact_csrf_gate
    (env : Env) (ecv : Bool) (req : Request) (rate : Option RateWindow)
    (store : Store) (now : Nat) (s1 s2 : Bool) :
    ((rateAdmit rate now).2 = false →
      (contactPipeline env ecv req rate store now s1 s2).resp =
        { status := 429, success := false,
          message := "Too many contact requests from this IP, please try again later." } ∧
      (contactPipeline env ecv req rate store now s1 s2).events = [] ∧
      (contactPipeline env ecv req rate store now s1 s2).store = store) ∧
    ((rateAdmit rate now).2 = true → (validateCsrf req store now).1 ≠ CsrfResult.ok →
      (contactPipeline env ecv req rate store now s1 s2).resp.status = 403 ∧
      (contactPipeline env ecv req rate store now s1 s2).resp.success = false ∧
      (contactPipeline env ecv req rate store now s1 s2).events = []) := by
  constructor
  · intro h
    refine ⟨?_, ?_, ?_⟩ <;> simp [contactPipeline, h]
  · intro hadm hcsrf
    rcases validateCsrf_result_cases req store now with hok | ⟨msg, herr⟩
    · exact absurd hok hcsrf
    · cases hv : validateCsrf req store now with
      | mk r store1 =>
          rw [hv] at herr
          dsimp only at herr
          subst herr
          refine ⟨?_, ?_, ?_⟩ <;> simp [contactPipeline, hadm, hv]

/-- Witness for C3: a request with no CSRF header against a store holding
an unrelated token is answered 403 with no events. -/
theorem contact_csrf_gate_witness :
    (contactPipeline envC true reqNone none storeTok 10 true true).resp.status = 403 ∧
    (contactPipeline envC true reqNone none storeTok 10 true true).resp.success = false ∧
    (contactPipeline envC true reqNone none storeTok 10 true true).events = [] :=
  (contact_csrf_gate envC true reqNone none storeTok 10 true true).2 (by decide)
    (by decide)

/-- C9: when the presented token is stored and unexpired and the request
passes rate-limit admission, the CSRF stage deletes the token before any
later stage runs, and the store produced by the whole pipeline is exactly
the deleted store in every later outcome (mail unconfigured, field
validation failure, dispatch failure, or success): the consumed token is
never restored, so a failed submission needs a freshly issued token. -/
theorem contact_token_consumed
    (env : Env) (ecv : Bool) (req : Request) (rate : Option RateWindow)
    (store : Store) (now : Nat) (s1 s2 : Bool) (t : String) (e : Entry)
    (hadm : (rateAdmit rate now).2 = true)
    (hreq : req.csrfHeader = some t) (htne : t ≠ "")
    (hs : store t = some e) (hexp : ¬ e.expires < now) :
    (contactPipeline env ecv req rate store now s1 s2).store = mapDelete t store ∧
    (contactPipeline env ecv req rate store now s1 s2).store t = none := by
  have hv := validateCsrf_passes req store now t hreq htne e hs hexp
  have hmain :
      (contactPipeline env ecv req rate store now s1 s2).store = mapDelete t store := by
    simp only [contactPipeline, hadm, hv]
    repeat' split
    all_goals simp_all
  refine ⟨hmain, ?_⟩
  rw [hmain]
  exact mapDelete_self t store

/-- Witness for C9: with mail unconfigured (503 path) the consumed token
"tok" is still gone from the store the pipeline returns. -/
theorem contact_token_consumed_witness :
    (contactPipeline envC false reqValid none storeTok 10 true true).store "tok" = none :=
  (contact_token_consumed envC false reqValid none storeTok 10 true true "tok"
    { clientId := "c", expires := 1000 } (by decide) rfl (by decide) rfl (by decide)).2

/-! ### C7 -/

/-- C7 counterexample: a rate-admitted request with a valid unexpired
token, configured mail, and a body passing validation, whose first
transport send fails, performs exactly one mail-send call — the auto-reply
is never attempted — refuting that exactly two mail-send calls are
performed for every valid, sanitized submission. -/
theorem contact_dispatch_cex :
    validateFields reqValid.body = none ∧
    (validateCsrf reqValid storeTok 10).1 = CsrfResult.ok ∧
    ((contactPipeline envC true reqValid none storeTok 10 false true).events.filter
        isSend).length = 1 ∧
    (contactPipeline envC true reqValid none storeTok 10 false true).resp.status = 500 := by
  refine ⟨by decide, by decide, ?_, ?_⟩ <;> decide

/-- C7 (amended): for a rate-admitted request with a valid unexpired token,
configured mail, and a body passing validation, the dispatcher attempts at
most two sends in sequence — the business notification (to the configured
company address) first, then the auto-reply to the submitter's original
unescaped address, the second attempted only when the first succeeded;
exactly two sends occur when the first succeeds; if either send fails the
whole operation answers the single 500 failure response with no retry, and
that response is identical whether the first email was sent or not, so the
caller cannot distinguish partial from total failure. -/
theorem contact_dispatch
    (env : Env) (req : Request) (rate : Option RateWindow)
    (store : Store) (now : Nat) (s2 : Bool) (t : String) (e : Entry)
    (hadm : (rateAdmit rate now).2 = true)
    (hreq : req.csrfHeader = some t) (htne : t ≠ "")
    (hs : store t = some e) (hexp : ¬ e.expires < now)
    (hfields : validateFields req.body = none) :
    ((contactPipeline env true req rate store now true true).events =
      [Event.fieldValidationStarted,
       Event.send (companyMail env (sanitizeAll req.body)),
       Event.send (customerMail env (req.body.email.getD "") (sanitizeAll req.body))] ∧
     (contactPipeline env true req rate store now true true).resp =
       { status := 200, success := true, message := "Message sent successfully!" }) ∧
    ((contactPipeline env true req rate store now false s2).events =
      [Event.fieldValidationStarted,
       Event.send (companyMail env (sanitizeAll req.body))] ∧
     (contactPipeline env true req rate store now false s2).resp = sendFailResp) ∧
    ((contactPipeline env true req rate store now true false).events =
      [Event.fieldValidationStarted,
       Event.send (companyMail env (sanitizeAll req.body)),
       Event.send (customerMail env (req.body.email.getD "") (sanitizeAll req.body))] ∧
     (contactPipeline env true req rate store now true false).resp = sendFailResp) ∧
    (companyMail env (sanitizeAll req.body)).toAddr = env.COMPANY_EMAIL ∧
    (customerMail env (req.body.email.getD "") (sanitizeAll req.body)).toAddr =
      req.body.email.getD "" := by
  have hv := validateCsrf_passes req store now t hreq htne e hs hexp
  refine ⟨⟨?_, ?_⟩, ⟨?_, ?_⟩, ⟨?_, ?_⟩, rfl, rfl⟩ <;>
    simp [contactPipeline, hadm, hv, hfields, sendFailResp]

/-- Witness for the amended C7: the concrete valid run with both sends
succeeding answers 200 success. -/
theorem contact_dispatch_witness :
    (contactPipeline envC true reqValid none storeTok 10 true true).resp =
      { status := 200, success := true, message := "Message sent successfully!" } :=
  ((contact_dispatch envC reqValid none storeTok 10 true "tok"
    { clientId := "c", expires := 1000 } (by decide) rfl (by decide) rfl (by decide)
    (by decide)).1).2
